import Mathlib

/-!
Verification development for the gordion-relay reverse-tunnel server.

The definitions below are a shallow embedding of the relay's WebSocket
transport (`internal/relay/server_websocket.go`), the transport cited by the
claims under scrutiny: the authentication / rate-limiting path of
`handleTunnelConnection`, the registry of agent connections, the single
reader loop `agentReadLoop`, the request forwarding pipeline
`forwardRequest`, and the public router `handleHTTPRequest`.

Modelling conventions:
* Go strings are Lean `String`s; where structural proofs are needed the
  functions work on the underlying `List Char` (`String.data`).
* Time (`time.Time` / `time.Duration`) is modelled as `Nat` seconds.
* Go maps are total functions into `Option`; map assignment and `delete`
  are pointwise updates, mirroring Go's overwrite/remove semantics.
* The WebSocket connection handle is abstracted by a numeric connection
  identity `connId`, which distinguishes tunnel records of different
  sessions for the same hospital code.
* Channels carrying frames are modelled as the finite list of frames that
  arrive before the request deadline; exhausting the list models the
  `select` timeout branch.
-/

namespace GordionRelay

/-- Map Go's `strings.ToLower` over the characters of a string
(ASCII case folding, which covers every hospital code and domain the
configuration format uses). -/
def lowerL (l : List Char) : List Char := l.map Char.toLower

/-- `strings.ToLower` on a whole string. -/
def strLower (s : String) : String := ⟨lowerL s.data⟩

/-- Model of Go's `strings.TrimSpace`: drop whitespace at both ends. -/
def trimL (l : List Char) : List Char :=
  ((l.dropWhile Char.isWhitespace).reverse.dropWhile Char.isWhitespace).reverse

/-- `extractHospitalCode` step: `host[:strings.Index(host, ":")]`
(keep everything before the first colon; unchanged when no colon). -/
def stripPortL (l : List Char) : List Char := l.takeWhile (· ≠ ':')

/-- One registered agent connection (`WSAgentConnection` in
`server_websocket.go`): hospital code, lowercased subdomain, the identity of
the underlying WebSocket connection, and the `LastSeen` timestamp. -/
structure WSAgent where
  hospitalCode : String
  subdomain : String
  connId : Nat
  lastSeen : Nat
deriving DecidableEq

/-- One entry of the static credential list (`HospitalConfig` in
`config.go`): `{code, subdomain, token}`. -/
structure HospitalCred where
  code : String
  subdomain : String
  token : String
deriving DecidableEq

/-- The relay configuration fields the modelled code paths read. -/
structure RelayConfig where
  domain : String
  hospitals : List HospitalCred

/-- Per-address failed-authentication record (`authAttempts` in
`server_websocket.go`): `{Count, LastAttempt, BlockedUntil}`. -/
structure FailRecord where
  count : Nat
  lastAttempt : Nat
  blockedUntil : Nat
deriving DecidableEq

/-- The mutable server state the authentication path touches:
`WebSocketServer.agents` and `WebSocketServer.failedAttempts`. -/
structure RelayState where
  agents : String → Option WSAgent
  failedAttempts : String → Option FailRecord

/-- Pointwise map update: Go's `m[k] = v` (with `some v`) and
`delete(m, k)` (with `none`). -/
def updateFn (m : String → Option α) (k : String) (v : Option α) : String → Option α :=
  fun q => if q = k then v else m q

/-- `maxAttempts` constant of `recordFailedAttempt` (5). -/
def maxAttempts : Nat := 5

/-- `blockDuration` constant of `recordFailedAttempt` (15 minutes, in
modelled seconds). -/
def blockDuration : Nat := 15 * 60

/-- `isRateLimited`: an address is limited iff it has a record and
`time.Now().Before(attempts.BlockedUntil)`. -/
def isRateLimited (s : RelayState) (addr : String) (now : Nat) : Bool :=
  match s.failedAttempts addr with
  | none => false
  | some a => decide (now < a.blockedUntil)

/-- The failed-attempt count currently recorded for an address (0 when no
record exists), as read by `recordFailedAttempt`. -/
def failCountOf (s : RelayState) (addr : String) : Nat :=
  match s.failedAttempts addr with
  | none => 0
  | some a => a.count

/-- `recordFailedAttempt`: create the record if absent, increment `Count`,
set `LastAttempt`, and once `Count ≥ maxAttempts` set
`BlockedUntil = now + blockDuration`. -/
def recordFailedAttempt (s : RelayState) (addr : String) (now : Nat) : RelayState :=
  let a0 := (s.failedAttempts addr).getD ⟨0, 0, 0⟩
  let c := a0.count + 1
  let a1 : FailRecord :=
    if maxAttempts ≤ c then ⟨c, now, now + blockDuration⟩
    else ⟨c, now, a0.blockedUntil⟩
  { s with failedAttempts := updateFn s.failedAttempts addr (some a1) }

/-- `clearFailedAttempts`: `delete(s.failedAttempts, remoteAddr)`. -/
def clearFailedAttempts (s : RelayState) (addr : String) : RelayState :=
  { s with failedAttempts := updateFn s.failedAttempts addr none }

/-- `getHospitalToken`: first configured hospital whose `code` matches
exactly and whose lowercased `subdomain` matches the (lowercased)
argument; returns its token. `none` models `ok = false`. -/
def getHospitalToken (cfg : RelayConfig) (code sub : String) : Option String :=
  let s := strLower sub
  (cfg.hospitals.find? (fun h => h.code == code && strLower h.subdomain == s)).map
    (fun h => h.token)

/-- Result of the registration phase of `handleTunnelConnection`:
the text frame written back to the edge and the updated server state. -/
structure RegResult where
  reply : String
  state : RelayState

/-- The registration phase of `handleTunnelConnection`, starting after the
first frame has been split into fields by `strings.Fields`:
format check, rate-limit check, subdomain validation, token validation,
clearing of failed attempts, and (unconditional) insertion into `agents`.
`connId` abstracts the just-upgraded WebSocket connection and `now` the
wall clock. -/
def handleRegistration (cfg : RelayConfig) (s : RelayState) (parts : List String)
    (remoteIP : String) (now : Nat) (connId : Nat) : RegResult :=
  match parts with
  | ["REGISTER", hospitalCode, rawSub, providedToken] =>
    let subdomain := strLower rawSub
    if isRateLimited s remoteIP now then
      ⟨"ERROR Too many failed attempts", s⟩
    else
      let expectedSubdomain := strLower (hospitalCode ++ "." ++ cfg.domain)
      if subdomain ≠ expectedSubdomain then
        ⟨"ERROR Invalid subdomain", recordFailedAttempt s remoteIP now⟩
      else
        match getHospitalToken cfg hospitalCode subdomain with
        | none => ⟨"ERROR Invalid token", recordFailedAttempt s remoteIP now⟩
        | some expectedToken =>
          if expectedToken = "" ∨ providedToken ≠ expectedToken then
            ⟨"ERROR Invalid token", recordFailedAttempt s remoteIP now⟩
          else
            let s1 := clearFailedAttempts s remoteIP
            let agent : WSAgent := ⟨hospitalCode, subdomain, connId, now⟩
            ⟨"OK Registered", { s1 with agents := updateFn s1.agents hospitalCode (some agent) }⟩
  | _ => ⟨"ERROR Invalid registration format", s⟩

/-- The disconnect cleanup at the end of `handleTunnelConnection`:
`delete(s.agents, hospitalCode)` under `agentsMutex`. -/
def unregisterAgent (s : RelayState) (hospitalCode : String) : RelayState :=
  { s with agents := updateFn s.agents hospitalCode none }

/-- `extractHospitalCode`: lowercase the Host, cut at the first colon
(drop the port), and if the result ends in `"." + lower(domain)` return
what precedes that suffix, else the empty string. -/
def extractHospitalCode (domain host : String) : String :=
  let h := stripPortL (lowerL host.data)
  let suf := '.' :: lowerL domain.data
  if suf <:+ h then ⟨h.take (h.length - suf.length)⟩ else ""

/-- WebSocket frame kinds relevant to `agentReadLoop`. -/
inductive WSMsgType where
  | text
  | binary
deriving DecidableEq

/-- `agentReadLoop`: the single reader of an agent connection. A TEXT frame
whose trimmed payload is `HEARTBEAT` only refreshes `LastSeen` and is
consumed; every other frame (including BINARY frames) is forwarded to the
session's message channel `MsgCh`. The result is the channel contents. -/
def agentForward : List (WSMsgType × String) → List String
  | [] => []
  | (ty, m) :: rest =>
    if ty = WSMsgType.text ∧ trimL m.data = "HEARTBEAT".data then agentForward rest
    else m :: agentForward rest

/-- `recvHead`: the header-wait loop of `forwardRequest` — pull frames off
the channel, skipping any whose payload equals `HEARTBEAT`, until the first
other frame (the response head) arrives; `none` models the timeout. -/
def recvHead : List String → Option (String × List String)
  | [] => none
  | f :: rest => if f = "HEARTBEAT" then recvHead rest else some (f, rest)

/-- Model of the status-line parsing performed by the Go standard library's
`http.ReadResponse` on the head frame: a head `"HTTP/<v> <code> <reason>"`
yields the numeric status code; anything else fails to parse. -/
def parseStatusCode (head : String) : Option Nat :=
  let ws := head.data
  let proto := ws.takeWhile (· ≠ ' ')
  let code := ((ws.dropWhile (· ≠ ' ')).drop 1).takeWhile (· ≠ ' ')
  if ['H', 'T', 'T', 'P', '/'].isPrefixOf proto ∧ code ≠ [] ∧ code.all Char.isDigit then
    some (code.foldl (fun n c => n * 10 + (c.toNat - 48)) 0)
  else none

/-- What `forwardRequest` does to the public client's response writer. -/
inductive ClientEvent where
  | write (chunk : String)
  | flush
deriving DecidableEq

/-- How the body-streaming loop of `forwardRequest` ends. -/
inductive BodyOutcome where
  | completed
  | timedOut
deriving DecidableEq

/-- The body-streaming loop of `forwardRequest` (the `for/select` over
`agent.MsgCh`): frames equal to `HEARTBEAT` are skipped, an empty frame
returns success, any other frame is written to the client and followed by
a `Flush`; an exhausted channel models the per-chunk timeout. -/
def streamBody : List String → List ClientEvent × BodyOutcome
  | [] => ([], BodyOutcome.timedOut)
  | chunk :: rest =>
    if chunk = "HEARTBEAT" then streamBody rest
    else if chunk.length = 0 then ([], BodyOutcome.completed)
    else
      let r := streamBody rest
      (ClientEvent.write chunk :: ClientEvent.flush :: r.1, r.2)

/-- Overall result of the receive side of `forwardRequest`, distinguishing
failures before the response head has been written to the client from
failures after it. -/
inductive ForwardResult where
  | errBeforeHeaders (msg : String)
  | errAfterHeaders (status : Nat) (written : List ClientEvent) (msg : String)
  | completed (status : Nat) (events : List ClientEvent)
deriving DecidableEq

/-- The receive side of `forwardRequest`: wait for the head frame (skipping
heartbeats), parse its status line, then stream the body. Errors raised
before `w.WriteHeader` has run are `errBeforeHeaders`; a body timeout after
the head was sent is `errAfterHeaders`. -/
def forwardRequestRecv (frames : List String) : ForwardResult :=
  match recvHead frames with
  | none => ForwardResult.errBeforeHeaders "failed to read response headers: timeout"
  | some (head, rest) =>
    match parseStatusCode head with
    | none => ForwardResult.errBeforeHeaders "failed to parse response"
    | some status =>
      let r := streamBody rest
      match r.2 with
      | BodyOutcome.completed => ForwardResult.completed status r.1
      | BodyOutcome.timedOut =>
        ForwardResult.errAfterHeaders status r.1 "failed to read body chunk: timeout"

/-- What the public client observes from `handleHTTPRequest`: a plain
status/body reply (routing errors and errors before the head was sent), a
streamed response, or — for an error raised after the head was sent — the
already-sent status with the error text appended to the body by the
handler's unconditional `http.Error` call, after which the response
terminates cleanly. -/
inductive HttpOutcome where
  | reply (status : Nat) (body : String)
  | streamed (status : Nat) (events : List ClientEvent)
  | errAppended (status : Nat) (written : List ClientEvent)
deriving DecidableEq

/-- `handleHTTPRequest`: extract the hospital code from the Host header
(`400 Invalid subdomain` when empty), look the agent up in the registry
(`503 Hospital not connected` when absent), and forward. Every forwarding
error is answered with the same unconditional
`http.Error(w, "Internal server error", 500)` call: before the head was
written this yields a plain 500 reply; after it, the superfluous
`WriteHeader(500)` is ignored by Go's ResponseWriter and the call appends
the text `Internal server error` to the already-started body, which then
terminates cleanly (it is not cut off). -/
def handleHTTPRequest (cfg : RelayConfig) (agents : String → Option WSAgent)
    (host : String) (frames : List String) : HttpOutcome :=
  let code := extractHospitalCode cfg.domain host
  if code = "" then HttpOutcome.reply 400 "Invalid subdomain"
  else
    match agents code with
    | none => HttpOutcome.reply 503 "Hospital not connected"
    | some _ =>
      match forwardRequestRecv frames with
      | ForwardResult.errBeforeHeaders _ => HttpOutcome.reply 500 "Internal server error"
      | ForwardResult.errAfterHeaders st w _ =>
        HttpOutcome.errAppended st (w ++ [ClientEvent.write "Internal server error"])
      | ForwardResult.completed st evs => HttpOutcome.streamed st evs

/-- The header-copying loop of `forwardRequest`'s request serialization:
for each incoming header key and each of its values, emit `key: value`,
skipping any key whose lowercase form is `host`. -/
def headerLines : List (String × List String) → List String
  | [] => []
  | (key, values) :: rest =>
    (if strLower key = "host" then [] else values.map (fun v => key ++ ": " ++ v)) ++
      headerLines rest

/-- The request serialization of `forwardRequest`: request line, a `Host`
line taken from the client's Host (when non-empty), the client's remaining
headers via `headerLines`, a blank line, then the body bytes. -/
def serializeRequest (method uri proto host : String)
    (headers : List (String × List String)) (body : String) : String :=
  let requestLine := method ++ " " ++ uri ++ " " ++ proto ++ "\r\n"
  let hostLine := if host ≠ "" then "Host: " ++ host ++ "\r\n" else ""
  requestLine ++ hostLine ++ String.join ((headerLines headers).map (· ++ "\r\n")) ++
    "\r\n" ++ body

/-- Events of one `forwardRequest` call, used to trace where the
per-session request mutex `ReqMutex` is held. -/
inductive SessionEvent where
  | lockReq
  | unlockReq
  | sendFrame (payload : String)
  | recvFrame (payload : String)
  | writeHead (status : Nat)
  | writeChunk (chunk : String)
  | flushClient
deriving DecidableEq

/-- Receive events of the header-wait loop: one `recvFrame` per pulled
frame, stopping at the first non-heartbeat frame. -/
def headTrace : List String → List SessionEvent
  | [] => []
  | f :: rest =>
    SessionEvent.recvFrame f :: (if f = "HEARTBEAT" then headTrace rest else [])

/-- Events of the body-streaming loop: a `recvFrame` per pulled frame,
plus `writeChunk`/`flushClient` for data frames, stopping at an empty
frame. -/
def bodyTrace : List String → List SessionEvent
  | [] => []
  | chunk :: rest =>
    SessionEvent.recvFrame chunk ::
      (if chunk = "HEARTBEAT" then bodyTrace rest
       else if chunk.length = 0 then []
       else SessionEvent.writeChunk chunk :: SessionEvent.flushClient :: bodyTrace rest)

/-- Events between acquiring and releasing `ReqMutex`, other than the send
of the request frame: header wait, head write, body streaming. -/
def coreTrace (frames : List String) : List SessionEvent :=
  headTrace frames ++
    (match recvHead frames with
     | none => []
     | some (head, rest) =>
       match parseStatusCode head with
       | none => []
       | some st => SessionEvent.writeHead st :: bodyTrace rest)

/-- The event trace of one `forwardRequest` call: `agent.ReqMutex.Lock()`
on entry, `defer agent.ReqMutex.Unlock()` so the release is the final
event on every return path, and in between the emission of the single
request frame followed by the entire response exchange. -/
def forwardRequestTrace (reqFrame : String) (frames : List String) : List SessionEvent :=
  SessionEvent.lockReq :: SessionEvent.sendFrame reqFrame ::
    (coreTrace frames ++ [SessionEvent.unlockReq])

/-! Concrete scenario data, following the spec's end-to-end scenarios:
domain `example.test` with the single credential
`{code: "a", subdomain: "a.example.test", token: "t1"}`. -/

/-- The scenario configuration. -/
def cfgEx : RelayConfig := ⟨"example.test", [⟨"a", "a.example.test", "t1"⟩]⟩

/-- Fresh server state: no agents, no failed attempts. -/
def emptyState : RelayState := ⟨fun _ => none, fun _ => none⟩

/-- One registration attempt with the wrong token from `1.2.3.4` at time
`t`, keeping only the state. -/
def badTokenStep (s : RelayState) (t : Nat) : RelayState :=
  (handleRegistration cfgEx s ["REGISTER", "a", "a.example.test", "wrong"] "1.2.3.4" t 0).state

/-- The state after four wrong-token registrations at times 0..3. -/
def sAfterFour : RelayState :=
  badTokenStep (badTokenStep (badTokenStep (badTokenStep emptyState 0) 1) 2) 3

/-- The fifth registration from the same address, now with the correct
token, at time 4. -/
def fifthCorrect : RegResult :=
  handleRegistration cfgEx sAfterFour ["REGISTER", "a", "a.example.test", "t1"] "1.2.3.4" 4 1

/-- A fifth wrong-token registration instead, at time 4. -/
def fifthWrong : RegResult :=
  handleRegistration cfgEx sAfterFour ["REGISTER", "a", "a.example.test", "wrong"] "1.2.3.4" 4 1

/-- A tunnel for hospital `a` registered by an earlier session. -/
def agentOld : WSAgent := ⟨"a", "a.example.test", 7, 0⟩

/-- Server state in which hospital `a` already has the live tunnel
`agentOld`. -/
def stateWithA : RelayState := ⟨updateFn (fun _ => none) "a" (some agentOld), fun _ => none⟩

/-- A second registration for hospital `a` while `agentOld` is still
registered (from another address, different connection). -/
def reRegister : RegResult :=
  handleRegistration cfgEx stateWithA ["REGISTER", "a", "a.example.test", "t1"] "9.9.9.9" 10 8

/-- The tunnel a racing re-registration installed for `a`, distinct from
the old session's `agentOld`. -/
def agentNew : WSAgent := ⟨"a", "a.example.test", 2, 5⟩

/-- State where the entry for `a` has already been replaced by `agentNew`
when the session owning `agentOld` runs its disconnect cleanup. -/
def stateRaced : RelayState := ⟨updateFn (fun _ => none) "a" (some agentNew), fun _ => none⟩

/-!  Theorems. -/

/-- C1 counterexample: with the tunnel `agentOld` already registered for
id `a`, a second registration for `a` does not fail with
`ERROR already-registered`; it replies `OK Registered` and replaces the
existing tunnel with the new session's record. -/
theorem c1_counterexample :
    stateWithA.agents "a" = some agentOld ∧
    reRegister.reply = "OK Registered" ∧
    reRegister.reply ≠ "ERROR already-registered" ∧
    reRegister.state.agents "a" = some ⟨"a", "a.example.test", 8, 10⟩ ∧
    (⟨"a", "a.example.test", 8, 10⟩ : WSAgent) ≠ agentOld := by
  refine ⟨rfl, rfl, ?_, rfl, ?_⟩ <;> decide

/-- C1 (amended): registration performs no presence check. Whenever the
address is not rate-limited and the subdomain and token validate, the
reply is `OK Registered` and the registry entry for the id is set to the
new session's tunnel — overwriting whatever entry was there — while every
other id is untouched; the last writer wins. -/
theorem c1_register_overwrites (cfg : RelayConfig) (s : RelayState)
    (code rawSub tok ip : String) (now connId : Nat) (k : String)
    (hrl : isRateLimited s ip now = false)
    (hsub : strLower rawSub = strLower (code ++ "." ++ cfg.domain))
    (htok : getHospitalToken cfg code (strLower rawSub) = some tok)
    (hne : tok ≠ "") (hk : k ≠ code) :
    (handleRegistration cfg s ["REGISTER", code, rawSub, tok] ip now connId).reply
        = "OK Registered" ∧
    (handleRegistration cfg s ["REGISTER", code, rawSub, tok] ip now connId).state.agents code
        = some ⟨code, strLower rawSub, connId, now⟩ ∧
    (handleRegistration cfg s ["REGISTER", code, rawSub, tok] ip now connId).state.agents k
        = s.agents k := by
  rw [hsub] at htok
  simp only [handleRegistration, hrl, Bool.false_eq_true, if_false, hsub, ne_eq,
    not_true_eq_false, if_true, htok]
  rw [if_neg (by simp [hne])]
  simp [clearFailedAttempts, updateFn, hk]

/-- C1 witness: the amended statement at the concrete re-registration
scenario. -/
theorem c1_register_overwrites_witness :
    (handleRegistration cfgEx stateWithA ["REGISTER", "a", "a.example.test", "t1"] "9.9.9.9" 10 8).reply
        = "OK Registered" ∧
    (handleRegistration cfgEx stateWithA ["REGISTER", "a", "a.example.test", "t1"] "9.9.9.9" 10 8).state.agents "a"
        = some ⟨"a", strLower "a.example.test", 8, 10⟩ ∧
    (handleRegistration cfgEx stateWithA ["REGISTER", "a", "a.example.test", "t1"] "9.9.9.9" 10 8).state.agents "b"
        = stateWithA.agents "b" :=
  c1_register_overwrites cfgEx stateWithA "a" "a.example.test" "t1" "9.9.9.9" 10 8 "b"
    (by decide) (by decide) (by decide) (by decide) (by decide)

/-- C2 counterexample: the disconnect cleanup of the session that owns
`agentOld` removes the registry entry for `a` even though the entry
currently holds the different tunnel `agentNew` installed by a racing
re-registration — the entry is not left in place. -/
theorem c2_counterexample :
    agentNew ≠ agentOld ∧
    stateRaced.agents "a" = some agentNew ∧
    (unregisterAgent stateRaced agentOld.hospitalCode).agents "a" = none := by
  refine ⟨?_, rfl, rfl⟩; decide

/-- C2 (amended): the unregister step at session termination is
unconditional — it deletes the registry entry for the session's id even
when the current entry is a different tunnel installed by a racing
re-registration; entries of other ids are preserved. -/
theorem c2_unregister_unconditional (s : RelayState) (code k : String) (t : WSAgent)
    ( _hcur : s.agents code = some t) (hk : k ≠ code) :
    (unregisterAgent s code).agents code = none ∧
    (unregisterAgent s code).agents k = s.agents k := by
  constructor <;> simp [unregisterAgent, updateFn, hk]

/-- C2 witness: the amended statement at the raced concrete state. -/
theorem c2_unregister_unconditional_witness :
    (unregisterAgent stateRaced "a").agents "a" = none ∧
    (unregisterAgent stateRaced "a").agents "b" = stateRaced.agents "b" :=
  c2_unregister_unconditional stateRaced "a" "b" agentNew (by decide) (by decide)

/-- C5 counterexample: after four wrong-token registrations from
`1.2.3.4`, the fifth registration carrying the correct token is not
rejected with the rate-limit error — it succeeds immediately. -/
theorem c5_counterexample :
    fifthCorrect.reply = "OK Registered" ∧
    fifthCorrect.reply ≠ "ERROR Too many failed attempts" := by
  refine ⟨rfl, ?_⟩; decide

/-- C5 (amended): four wrong-token registrations leave a count of 4 and no
block, so a fifth attempt with the correct token succeeds immediately and
clears the record. The block trips only on a fifth failed attempt: after
`fifthWrong`, a correct registration within the 15-minute window is
answered `ERROR Too many failed attempts`, and succeeds once the window
has elapsed. -/
theorem c5_block_trips_on_fifth_failure :
    (sAfterFour.failedAttempts "1.2.3.4").map FailRecord.count = some 4 ∧
    isRateLimited sAfterFour "1.2.3.4" 4 = false ∧
    fifthCorrect.reply = "OK Registered" ∧
    fifthCorrect.state.failedAttempts "1.2.3.4" = none ∧
    fifthWrong.reply = "ERROR Invalid token" ∧
    (handleRegistration cfgEx fifthWrong.state ["REGISTER", "a", "a.example.test", "t1"]
        "1.2.3.4" 5 2).reply = "ERROR Too many failed attempts" ∧
    (handleRegistration cfgEx fifthWrong.state ["REGISTER", "a", "a.example.test", "t1"]
        "1.2.3.4" (4 + blockDuration) 2).reply = "OK Registered" := by
  refine ⟨rfl, ?_, rfl, rfl, rfl, rfl, rfl⟩; decide

/-- C4: once an address has accumulated five recorded failures (the last
one at time `t`), every well-formed registration attempt from it before
`t + blockDuration` is answered `ERROR Too many failed attempts` with the
state untouched, and the result is identical under any two configurations
— the credential set (and even the domain) is never consulted. Moreover a
registration that succeeds removes the address's failed-attempt record
entirely. -/
theorem c4_rate_limit_blocks_and_clears :
    (∀ (cfgA cfgB : RelayConfig) (s : RelayState) (ip code rawSub tok : String)
        (t now connId : Nat),
      4 ≤ failCountOf s ip →
      now < t + blockDuration →
      (handleRegistration cfgA (recordFailedAttempt s ip t)
          ["REGISTER", code, rawSub, tok] ip now connId).reply
          = "ERROR Too many failed attempts" ∧
      (handleRegistration cfgA (recordFailedAttempt s ip t)
          ["REGISTER", code, rawSub, tok] ip now connId).state
          = recordFailedAttempt s ip t ∧
      handleRegistration cfgA (recordFailedAttempt s ip t)
          ["REGISTER", code, rawSub, tok] ip now connId
          = handleRegistration cfgB (recordFailedAttempt s ip t)
              ["REGISTER", code, rawSub, tok] ip now connId) ∧
    (∀ (cfg : RelayConfig) (s : RelayState) (code rawSub tok ip : String)
        (now connId : Nat),
      (handleRegistration cfg s ["REGISTER", code, rawSub, tok] ip now connId).reply
          = "OK Registered" →
      (handleRegistration cfg s ["REGISTER", code, rawSub, tok] ip now connId).state.failedAttempts ip
          = none) := by
  constructor
  · intro cfgA cfgB s ip code rawSub tok t now connId hge hnow
    have hrl : isRateLimited (recordFailedAttempt s ip t) ip now = true := by
      have hc : maxAttempts ≤ ((s.failedAttempts ip).getD ⟨0, 0, 0⟩).count + 1 := by
        cases hfa : s.failedAttempts ip with
        | none => simp [failCountOf, hfa] at hge
        | some a =>
          simp [failCountOf, hfa] at hge
          simp [maxAttempts]
          omega
      simp [isRateLimited, recordFailedAttempt, updateFn, hc, hnow]
    refine ⟨?_, ?_, ?_⟩ <;> simp [handleRegistration, hrl]
  · intro cfg s code rawSub tok ip now connId hok
    by_cases h1 : isRateLimited s ip now = true
    · simp [handleRegistration, h1] at hok
    · rw [Bool.not_eq_true] at h1
      by_cases h2 : strLower rawSub = strLower (code ++ "." ++ cfg.domain)
      · cases h3 : getHospitalToken cfg code (strLower (code ++ "." ++ cfg.domain)) with
        | none => simp [handleRegistration, h1, h2, h3] at hok
        | some expTok =>
          by_cases h4 : expTok = "" ∨ tok ≠ expTok
          · simp [handleRegistration, h1, h2, h3] at hok
            rw [if_pos h4] at hok
            simp at hok
          · simp [handleRegistration, h1, h2, h3, h4, clearFailedAttempts, updateFn]
      · simp [handleRegistration, h1, h2] at hok

/-- C4 witness: both halves at concrete inputs — the state after five
wrong-token attempts blocks a correct attempt one second later regardless
of configuration, and the successful first registration clears the
record. -/
theorem c4_witness :
    ((handleRegistration cfgEx (recordFailedAttempt sAfterFour "1.2.3.4" 4)
        ["REGISTER", "a", "a.example.test", "t1"] "1.2.3.4" 5 2).reply
        = "ERROR Too many failed attempts" ∧
     (handleRegistration cfgEx (recordFailedAttempt sAfterFour "1.2.3.4" 4)
        ["REGISTER", "a", "a.example.test", "t1"] "1.2.3.4" 5 2).state
        = recordFailedAttempt sAfterFour "1.2.3.4" 4 ∧
     handleRegistration cfgEx (recordFailedAttempt sAfterFour "1.2.3.4" 4)
        ["REGISTER", "a", "a.example.test", "t1"] "1.2.3.4" 5 2
        = handleRegistration ⟨"other.example", []⟩ (recordFailedAttempt sAfterFour "1.2.3.4" 4)
            ["REGISTER", "a", "a.example.test", "t1"] "1.2.3.4" 5 2) ∧
    (handleRegistration cfgEx emptyState ["REGISTER", "a", "a.example.test", "t1"]
        "1.2.3.4" 0 0).state.failedAttempts "1.2.3.4" = none :=
  ⟨c4_rate_limit_blocks_and_clears.1 cfgEx ⟨"other.example", []⟩ sAfterFour
      "1.2.3.4" "a" "a.example.test" "t1" 4 5 2 (by decide) (by decide),
   c4_rate_limit_blocks_and_clears.2 cfgEx emptyState
      "a" "a.example.test" "t1" "1.2.3.4" 0 0 (by decide)⟩

/-- A Go byte slice has length zero exactly when it is the empty string. -/
theorem strLength_zero_iff (s : String) : s.length = 0 ↔ s = "" := by
  cases s with
  | mk d =>
    constructor
    · intro h
      have hd : d = [] := by simpa [String.length] using h
      rw [hd]
    · intro h
      rw [h]
      decide

/-- C6: in the body-streaming loop, an empty frame terminates the response
successfully, and the client writes are exactly the non-empty,
non-heartbeat frames that precede the first empty frame, in arrival
order, each followed by a flush — heartbeat frames contribute nothing. -/
theorem c6_body_streaming (frames : List String) :
    ("" ∈ frames → (streamBody frames).2 = BodyOutcome.completed) ∧
    (streamBody frames).1 =
      ((frames.takeWhile (· ≠ "")).filter (· ≠ "HEARTBEAT")).flatMap
        (fun c => [ClientEvent.write c, ClientEvent.flush]) := by
  induction frames with
  | nil => simp [streamBody]
  | cons f rest ih =>
    by_cases hH : f = "HEARTBEAT"
    · subst hH
      constructor
      · intro hm
        have hmr : "" ∈ rest := by simpa using hm
        simpa [streamBody] using ih.1 hmr
      · simpa [streamBody] using ih.2
    · by_cases hE : f = ""
      · subst hE
        refine ⟨fun _ => ?_, ?_⟩
        · simp [streamBody]
        · simp [streamBody]
      · have hlen : ¬ f.length = 0 := fun h => hE ((strLength_zero_iff f).mp h)
        constructor
        · intro hm
          have hmr : "" ∈ rest := by
            rcases List.mem_cons.mp hm with h | h
            · exact absurd h.symm hE
            · exact h
          simp [streamBody, hH, hlen, ih.1 hmr]
        · simp [streamBody, hH, hlen, hE, ih.2]

/-- C6 witness: the streaming property at a concrete frame sequence with a
heartbeat interleaved, an empty terminator, and a frame after it. -/
theorem c6_body_streaming_witness :
    (streamBody ["alpha", "HEARTBEAT", "beta", "", "late"]).2 = BodyOutcome.completed ∧
    (streamBody ["alpha", "HEARTBEAT", "beta", "", "late"]).1 =
      (((["alpha", "HEARTBEAT", "beta", "", "late"].takeWhile (· ≠ "")).filter
          (· ≠ "HEARTBEAT")).flatMap (fun c => [ClientEvent.write c, ClientEvent.flush])) :=
  ⟨(c6_body_streaming ["alpha", "HEARTBEAT", "beta", "", "late"]).1 (by decide),
   (c6_body_streaming ["alpha", "HEARTBEAT", "beta", "", "late"]).2⟩

/-- C7 counterexample: a dispatch that times out before any response
headers arrive (empty frame list) is answered with
`500 Internal server error` — not with `502 Bad Gateway`; and when the
timeout strikes after the head was sent (a body with no terminator), the
already-started body is not aborted — the handler's unconditional
`http.Error` call appends the error text after the data that was
written, and the response then terminates cleanly. -/
theorem c7_counterexample :
    handleHTTPRequest cfgEx stateWithA.agents "a.example.test" [] =
      HttpOutcome.reply 500 "Internal server error" ∧
    HttpOutcome.reply 500 "Internal server error" ≠
      HttpOutcome.reply 502 "Bad Gateway" ∧
    handleHTTPRequest cfgEx stateWithA.agents "a.example.test"
        ["HTTP/1.1 200 OK", "data"] =
      HttpOutcome.errAppended 200
        [ClientEvent.write "data", ClientEvent.flush,
         ClientEvent.write "Internal server error"] := by
  refine ⟨rfl, ?_, rfl⟩; decide

/-- C7 (amended): when dispatch through the tunnel fails before response
headers were sent, the relay answers the public client with
`500 Internal server error` (the generic `http.Error` path of
`handleHTTPRequest`); when the head was already sent the same
unconditional call cannot change the status — it appends the text
`Internal server error` to the already-started body, which then
terminates cleanly rather than being aborted. -/
theorem c7_error_before_headers_500 (cfg : RelayConfig) (agents : String → Option WSAgent)
    (host : String) (frames : List String) (t : WSAgent)
    (hcode : extractHospitalCode cfg.domain host ≠ "")
    (hag : agents (extractHospitalCode cfg.domain host) = some t) :
    (∀ msg, forwardRequestRecv frames = ForwardResult.errBeforeHeaders msg →
      handleHTTPRequest cfg agents host frames
        = HttpOutcome.reply 500 "Internal server error") ∧
    (∀ st w msg, forwardRequestRecv frames = ForwardResult.errAfterHeaders st w msg →
      handleHTTPRequest cfg agents host frames
        = HttpOutcome.errAppended st (w ++ [ClientEvent.write "Internal server error"])) := by
  constructor
  · intro msg herr
    simp [handleHTTPRequest, hcode, hag, herr]
  · intro st w msg herr
    simp [handleHTTPRequest, hcode, hag, herr]

/-- C7 witness: the amended statement at a concrete dispatch that times
out before headers and at one that times out mid-body. -/
theorem c7_error_before_headers_500_witness :
    handleHTTPRequest cfgEx stateWithA.agents "a.example.test" [] =
      HttpOutcome.reply 500 "Internal server error" ∧
    handleHTTPRequest cfgEx stateWithA.agents "a.example.test"
        ["HTTP/1.1 200 OK", "data"] =
      HttpOutcome.errAppended 200
        ([ClientEvent.write "data", ClientEvent.flush] ++
          [ClientEvent.write "Internal server error"]) :=
  ⟨(c7_error_before_headers_500 cfgEx stateWithA.agents "a.example.test" [] agentOld
      (by decide) (by decide)).1 "failed to read response headers: timeout" (by decide),
   (c7_error_before_headers_500 cfgEx stateWithA.agents "a.example.test"
      ["HTTP/1.1 200 OK", "data"] agentOld (by decide) (by decide)).2 200
      [ClientEvent.write "data", ClientEvent.flush]
      "failed to read body chunk: timeout" (by decide)⟩

/-- C8 counterexample: hop-by-hop headers are not excluded from the
serialized tunnel request — `Connection`, `Keep-Alive` and `Upgrade`
lines from the client all appear verbatim; only `Host` is dropped. -/
theorem c8_counterexample :
    "Connection: keep-alive" ∈ headerLines
      [("Connection", ["keep-alive"]), ("Keep-Alive", ["timeout=5"]),
       ("Upgrade", ["websocket"])] ∧
    "Upgrade: websocket" ∈ headerLines
      [("Connection", ["keep-alive"]), ("Keep-Alive", ["timeout=5"]),
       ("Upgrade", ["websocket"])] ∧
    "Host: evil.example" ∉ headerLines [("Host", ["evil.example"])] := by
  decide

/-- C8 (amended): the serialized request contains every client header
verbatim — including hop-by-hop headers — except those whose lowercased
key is `host`, and a `Host` line set to the client's Host is emitted
first. -/
theorem c8_forward_all_but_host (method uri proto host body : String)
    (headers : List (String × List String)) (hh : host ≠ "") :
    headerLines headers =
      (headers.filter (fun p => !(strLower p.1 == "host"))).flatMap
        (fun p => p.2.map (fun v => p.1 ++ ": " ++ v)) ∧
    serializeRequest method uri proto host headers body =
      method ++ " " ++ uri ++ " " ++ proto ++ "\r\n" ++ ("Host: " ++ host ++ "\r\n") ++
        String.join ((headerLines headers).map (· ++ "\r\n")) ++ "\r\n" ++ body := by
  constructor
  · induction headers with
    | nil => rfl
    | cons p rest ih =>
      obtain ⟨key, vs⟩ := p
      by_cases hk : strLower key = "host"
      · simp [headerLines, hk, ih]
      · simp [headerLines, hk, ih]
  · simp [serializeRequest, hh]

/-- C8 witness: the amended statement at a concrete request carrying a
hop-by-hop header. -/
theorem c8_forward_all_but_host_witness :
    headerLines [("Connection", ["keep-alive"]), ("Host", ["inner.example"])] =
      (([("Connection", ["keep-alive"]), ("Host", ["inner.example"])].filter
          (fun p => !(strLower p.1 == "host"))).flatMap
        (fun p => p.2.map (fun v => p.1 ++ ": " ++ v))) ∧
    serializeRequest "GET" "/x" "HTTP/1.1" "a.example.test"
        [("Connection", ["keep-alive"]), ("Host", ["inner.example"])] "" =
      "GET" ++ " " ++ "/x" ++ " " ++ "HTTP/1.1" ++ "\r\n" ++
        ("Host: " ++ "a.example.test" ++ "\r\n") ++
        String.join ((headerLines
          [("Connection", ["keep-alive"]), ("Host", ["inner.example"])]).map (· ++ "\r\n")) ++
        "\r\n" ++ "" :=
  c8_forward_all_but_host "GET" "/x" "HTTP/1.1" "a.example.test" ""
    [("Connection", ["keep-alive"]), ("Host", ["inner.example"])] (by decide)

/-- C9: public routing — the tunnel id is what remains of the lowercased,
port-stripped Host after removing the trailing dot-domain suffix; an empty
id is answered `400 Invalid subdomain`, an id with no registered tunnel is
answered `503 Hospital not connected`. -/
theorem c9_routing (cfg : RelayConfig) (agents : String → Option WSAgent)
    (host : String) (frames : List String) :
    (extractHospitalCode cfg.domain host = "" →
      handleHTTPRequest cfg agents host frames = HttpOutcome.reply 400 "Invalid subdomain") ∧
    (extractHospitalCode cfg.domain host ≠ "" →
      agents (extractHospitalCode cfg.domain host) = none →
      handleHTTPRequest cfg agents host frames
        = HttpOutcome.reply 503 "Hospital not connected") ∧
    (extractHospitalCode cfg.domain host ≠ "" →
      stripPortL (lowerL host.data) =
        (extractHospitalCode cfg.domain host).data ++ '.' :: lowerL cfg.domain.data) := by
  refine ⟨?_, ?_, ?_⟩
  · intro h
    simp [handleHTTPRequest, h]
  · intro h hnone
    simp [handleHTTPRequest, h, hnone]
  · intro hne
    simp only [extractHospitalCode] at hne ⊢
    by_cases hs : ('.' :: lowerL cfg.domain.data) <:+ stripPortL (lowerL host.data)
    · rw [if_pos hs] at hne ⊢
      obtain ⟨t, ht⟩ := hs
      have hlen : (stripPortL (lowerL host.data)).length -
          ('.' :: lowerL cfg.domain.data).length = t.length := by
        rw [← ht]
        simp
      show stripPortL (lowerL host.data) =
        (stripPortL (lowerL host.data)).take ((stripPortL (lowerL host.data)).length -
          ('.' :: lowerL cfg.domain.data).length) ++ '.' :: lowerL cfg.domain.data
      rw [hlen, ← ht, List.take_left]
    · rw [if_neg hs] at hne
      exact absurd rfl hne

/-- C9 witness: the three routing conjuncts at concrete hosts — a foreign
domain, an unknown subdomain, and a mixed-case host with a port. -/
theorem c9_routing_witness :
    handleHTTPRequest cfgEx (fun _ => none) "foreign.com" [] =
      HttpOutcome.reply 400 "Invalid subdomain" ∧
    handleHTTPRequest cfgEx (fun _ => none) "nope.example.test" [] =
      HttpOutcome.reply 503 "Hospital not connected" ∧
    stripPortL (lowerL "A.Example.Test:443".data) =
      (extractHospitalCode cfgEx.domain "A.Example.Test:443").data ++
        '.' :: lowerL cfgEx.domain.data :=
  ⟨(c9_routing cfgEx (fun _ => none) "foreign.com" []).1 (by decide),
   (c9_routing cfgEx (fun _ => none) "nope.example.test" []).2.1 (by decide) (by decide),
   (c9_routing cfgEx (fun _ => none) "A.Example.Test:443" []).2.2 (by decide)⟩

/-- The reader loop processes concatenated message lists independently. -/
theorem agentForward_append (a b : List (WSMsgType × String)) :
    agentForward (a ++ b) = agentForward a ++ agentForward b := by
  induction a with
  | nil => rfl
  | cons m rest ih =>
    obtain ⟨ty, s⟩ := m
    by_cases hm : ty = WSMsgType.text ∧ trimL s.data = "HEARTBEAT".data
    · simp only [List.cons_append, agentForward, if_pos hm]
      exact ih
    · simp only [List.cons_append, agentForward, if_neg hm]
      exact congrArg (s :: ·) ih

/-- Deleting a `HEARTBEAT` frame anywhere in the queue leaves the body
streaming loop's result unchanged. -/
theorem streamBody_skip_heartbeat (a b : List String) :
    streamBody (a ++ "HEARTBEAT" :: b) = streamBody (a ++ b) := by
  induction a with
  | nil => simp [streamBody]
  | cons f rest ih =>
    by_cases hH : f = "HEARTBEAT"
    · subst hH
      simpa [streamBody] using ih
    · by_cases hE : f.length = 0
      · simp [streamBody, hH, hE]
      · simp [streamBody, hH, hE, ih]

/-- Deleting a `HEARTBEAT` frame anywhere in the queue leaves the whole
receive side of `forwardRequest` unchanged. -/
theorem forwardRequestRecv_skip_heartbeat (a b : List String) :
    forwardRequestRecv (a ++ "HEARTBEAT" :: b) = forwardRequestRecv (a ++ b) := by
  induction a with
  | nil => simp [forwardRequestRecv, recvHead]
  | cons f rest ih =>
    by_cases hH : f = "HEARTBEAT"
    · subst hH
      simpa [forwardRequestRecv, recvHead] using ih
    · simp [forwardRequestRecv, recvHead, hH, streamBody_skip_heartbeat]

/-- The body loop never writes the bytes `HEARTBEAT` to the client. -/
theorem streamBody_no_heartbeat_write (frames : List String) :
    ClientEvent.write "HEARTBEAT" ∉ (streamBody frames).1 := by
  induction frames with
  | nil => simp [streamBody]
  | cons f rest ih =>
    by_cases hH : f = "HEARTBEAT"
    · simpa [streamBody, hH] using ih
    · by_cases hE : f.length = 0
      · simp [streamBody, hH, hE]
      · simp [streamBody, hH, hE, ih, Ne.symm hH]

/-- C10: a BINARY frame whose payload is exactly `HEARTBEAT` is forwarded
by the reader loop (only TEXT heartbeats refresh liveness), yet the
response path treats it as a heartbeat by payload comparison: inserting
such a frame anywhere in an edge's message stream changes nothing about
the response delivered to the public client, and the bytes `HEARTBEAT`
are never written to the client's body. -/
theorem c10_binary_heartbeat_dropped :
    (∀ pre post, agentForward (pre ++ (WSMsgType.binary, "HEARTBEAT") :: post) =
        agentForward pre ++ "HEARTBEAT" :: agentForward post) ∧
    (∀ pre post,
      forwardRequestRecv (agentForward (pre ++ (WSMsgType.binary, "HEARTBEAT") :: post)) =
        forwardRequestRecv (agentForward (pre ++ post))) ∧
    (∀ frames, ClientEvent.write "HEARTBEAT" ∉ (streamBody frames).1) := by
  have hcons : ∀ post, agentForward ((WSMsgType.binary, "HEARTBEAT") :: post) =
      "HEARTBEAT" :: agentForward post := by
    intro post
    simp [agentForward]
  refine ⟨?_, ?_, streamBody_no_heartbeat_write⟩
  · intro pre post
    rw [agentForward_append, hcons]
  · intro pre post
    rw [agentForward_append, hcons, agentForward_append]
    exact forwardRequestRecv_skip_heartbeat _ _

/-- The header-wait loop only pulls frames off the channel. -/
theorem headTrace_no_lock (l : List String) :
    SessionEvent.lockReq ∉ headTrace l ∧ SessionEvent.unlockReq ∉ headTrace l := by
  induction l with
  | nil => simp [headTrace]
  | cons f rest ih =>
    by_cases hH : f = "HEARTBEAT"
    · simp [headTrace, hH, ih]
    · simp [headTrace, hH]

/-- The body loop only pulls frames and writes to the client. -/
theorem bodyTrace_no_lock (l : List String) :
    SessionEvent.lockReq ∉ bodyTrace l ∧ SessionEvent.unlockReq ∉ bodyTrace l := by
  induction l with
  | nil => simp [bodyTrace]
  | cons f rest ih =>
    by_cases hH : f = "HEARTBEAT"
    · simp [bodyTrace, hH, ih]
    · by_cases hE : f.length = 0
      · simp [bodyTrace, hH, hE]
      · simp [bodyTrace, hH, hE, ih]

/-- When the header wait returns a head frame, its receive event is in the
header-wait trace. -/
theorem recvFrame_mem_headTrace (l : List String) (f : String) (rest : List String)
    (h : recvHead l = some (f, rest)) : SessionEvent.recvFrame f ∈ headTrace l := by
  induction l with
  | nil => simp [recvHead] at h
  | cons g l' ih =>
    by_cases hH : g = "HEARTBEAT"
    · subst hH
      simp only [recvHead, if_pos rfl] at h
      simp [headTrace, ih h]
    · simp [recvHead, hH] at h
      simp [headTrace, hH, h.1]

/-- C3 counterexample: the event trace of one WebSocket `forwardRequest`
call at a concrete exchange — the per-session request mutex is acquired
as the first event and released as the last, spanning the request send,
the receive of the response head, the body write, and the terminator; it
is not limited to the emission of a single frame, and the response frames
carry no request id to correlate by. -/
theorem c3_counterexample :
    forwardRequestTrace "REQ" ["HTTP/1.1 200 OK", "payload", ""] =
      [SessionEvent.lockReq, SessionEvent.sendFrame "REQ",
       SessionEvent.recvFrame "HTTP/1.1 200 OK", SessionEvent.writeHead 200,
       SessionEvent.recvFrame "payload", SessionEvent.writeChunk "payload",
       SessionEvent.flushClient, SessionEvent.recvFrame "",
       SessionEvent.unlockReq] ∧
    (forwardRequestTrace "REQ" ["HTTP/1.1 200 OK", "payload", ""]).getLast? =
      some SessionEvent.unlockReq ∧
    SessionEvent.recvFrame "payload" ∈
      forwardRequestTrace "REQ" ["HTTP/1.1 200 OK", "payload", ""] := by
  refine ⟨?_, ?_, ?_⟩ <;> decide

/-- C3 (amended): on the WebSocket transport the per-session request mutex
is held for the entire end-to-end request — every trace is the lock,
then the request send and the whole response exchange (during which the
head-frame receive occurs), and the unlock is the single final event;
requests over one tunnel are thereby serialized and responses are matched
by arrival order on the shared channel, not by a request id. -/
theorem c3_mutex_spans_request (reqFrame : String) (frames : List String) :
    forwardRequestTrace reqFrame frames =
      SessionEvent.lockReq ::
        ((SessionEvent.sendFrame reqFrame :: coreTrace frames) ++ [SessionEvent.unlockReq]) ∧
    SessionEvent.lockReq ∉ coreTrace frames ∧
    SessionEvent.unlockReq ∉ coreTrace frames ∧
    (∀ f rest, recvHead frames = some (f, rest) →
      SessionEvent.recvFrame f ∈ coreTrace frames) := by
  refine ⟨rfl, ?_, ?_, ?_⟩
  · unfold coreTrace
    rcases hr : recvHead frames with _ | ⟨f, rest⟩
    · simp [hr, (headTrace_no_lock frames).1]
    · rcases hp : parseStatusCode f with _ | st
      · simp [hr, hp, (headTrace_no_lock frames).1]
      · simp [hr, hp, (headTrace_no_lock frames).1, (bodyTrace_no_lock rest).1]
  · unfold coreTrace
    rcases hr : recvHead frames with _ | ⟨f, rest⟩
    · simp [hr, (headTrace_no_lock frames).2]
    · rcases hp : parseStatusCode f with _ | st
      · simp [hr, hp, (headTrace_no_lock frames).2]
      · simp [hr, hp, (headTrace_no_lock frames).2, (bodyTrace_no_lock rest).2]
  · intro f rest h
    unfold coreTrace
    exact List.mem_append_left _ (recvFrame_mem_headTrace frames f rest h)

/-- C3 witness: the amended statement at a one-frame response — the head
receive happens between lock and unlock. -/
theorem c3_mutex_spans_request_witness :
    SessionEvent.recvFrame "HTTP/1.1 204 No Content" ∈
      coreTrace ["HTTP/1.1 204 No Content"] ∧
    SessionEvent.lockReq ∉ coreTrace ["HTTP/1.1 204 No Content"] :=
  ⟨(c3_mutex_spans_request "R" ["HTTP/1.1 204 No Content"]).2.2.2
      "HTTP/1.1 204 No Content" [] (by decide),
   (c3_mutex_spans_request "R" ["HTTP/1.1 204 No Content"]).2.1⟩

end GordionRelay
